import Mathlib

/-!
Shallow embedding of the change-risk-assessment service
(`src/agent.py`, `src/app.py`).

Texts are modelled as `List Char`; the Python `int` risk score is
modelled as `Int` (Python ints are unbounded); Python exceptions are
modelled with `Except`.  Character classes are restricted to their
ASCII behaviour (`\d` = the ten decimal digits, `\s` = ASCII
whitespace, lowercasing = ASCII lowering), which agrees with Python on
all ASCII text.
-/

/-- The `RiskLevel` enumeration from `agent.py`. -/
inductive RiskLevel where
  | low
  | moderate
  | high
  | critical
deriving DecidableEq, Repr

/-- The `ChangeRequest` pydantic model from `agent.py`.  `teams_involved` and
`outage_duration_minutes` are plain Python `int`s (no sign constraint in
the source), hence `Int`. -/
structure ChangeRequest where
  change_id : String
  description : String
  affected_systems : List String
  implementation_date : String
  teams_involved : Int
  has_rollback_plan : Bool
  testing_completed : Bool
  service_outage_required : Bool
  outage_duration_minutes : Int := 0
deriving DecidableEq, Repr

/-- The `RiskAssessment` pydantic model from `agent.py`.  The pydantic
`Field(ge=0, le=100)` constraint on `risk_score` is a construction-time
validation; it is modelled in `mkRiskAssessment` below.  The Python
`Dict[str, str]` (insertion ordered) is modelled as an association
list. -/
structure RiskAssessment where
  change_id : String
  risk_level : RiskLevel
  risk_score : Int
  risk_factors : List (String × String)
  recommendations : List String
  approval_required : Bool
deriving DecidableEq, Repr

/-- Validating constructor for `RiskAssessment`: pydantic raises a
`ValidationError` when `risk_score` violates `ge=0, le=100`. -/
def mkRiskAssessment (change_id : String) (risk_level : RiskLevel)
    (risk_score : Int) (risk_factors : List (String × String))
    (recommendations : List String) (approval_required : Bool) :
    Except String RiskAssessment :=
  if 0 ≤ risk_score ∧ risk_score ≤ 100 then
    .ok ⟨change_id, risk_level, risk_score, risk_factors, recommendations,
         approval_required⟩
  else
    .error ("1 validation error for RiskAssessment risk_score")

/-- ASCII whitespace, the characters that the Python class `\s` matches on ASCII text:
space, tab, newline, carriage return, vertical tab, form feed. -/
def isPySpace (c : Char) : Bool :=
  c == ' ' || c == '\t' || c == '\n' || c == '\r' ||
  c == Char.ofNat 11 || c == Char.ofNat 12

/-- Numeric value of a run of decimal digits, as the Python `int()` call
parses the captured group. -/
def digitsToNat (ds : List Char) : Nat :=
  List.foldl (fun n c => 10 * n + (c.toNat - 48)) 0 ds

/-- Match of the regex alternative `(\d+)/100` anchored at the head of
`s`: a maximal nonempty digit run followed by the literal "/100"
(shorter runs need not be tried: `/` is not a digit, so backtracking
inside `\d+` can never succeed). -/
def alt1 (s : List Char) : Option Int :=
  let ds := s.takeWhile Char.isDigit
  if ds.isEmpty then none
  else if List.isPrefixOf (['/', '1', '0', '0']) (s.drop ds.length) then
    some (digitsToNat ds : Nat)
  else none

/-- Match of the regex alternative `score:\s*(\d+)` anchored at the head
of `s`. -/
def alt2 (s : List Char) : Option Int :=
  if List.isPrefixOf (['s', 'c', 'o', 'r', 'e', ':']) s then
    let t := (s.drop 6).dropWhile isPySpace
    let ds := t.takeWhile Char.isDigit
    if ds.isEmpty then none else some (digitsToNat ds : Nat)
  else none

/-- Match of the full pattern `(\d+)/100|score:\s*(\d+)` anchored at the
head of `s`: alternatives are tried left to right (their first
characters are disjoint, so the order cannot matter). -/
def matchAt (s : List Char) : Option Int :=
  match alt1 s with
  | some v => some v
  | none => alt2 s

/-- Embedding of `re.search` for the pattern: try each start position
from the left and return the first (leftmost) match. -/
def reSearch : List Char → Option Int
  | [] => none
  | c :: cs =>
    match matchAt (c :: cs) with
    | some v => some v
    | none => reSearch cs

/-- Function `extract_risk_score` from `app.py`: the value of the first match of
`(\d+)/100|score:\s*(\d+)` in the given text, defaulting to 50 when the
pattern does not occur. -/
def extract_risk_score (output : List Char) : Int :=
  match reSearch output with
  | some v => v
  | none => 50

/-- ASCII lowering, as the Python method for lowercasing acts on ASCII text. -/
def lowerText (s : List Char) : List Char :=
  s.map Char.toLower

/-- The extraction step as the pipeline performs it
(`parse_gemini_output` lowercases the model text before calling
`extract_risk_score`). -/
def extractFromOutput (output : List Char) : Int :=
  extract_risk_score (lowerText output)

/-- Risk-level banding from `parse_gemini_output` in `app.py`
(the if/elif chain on `risk_score`). -/
def riskLevelOf (risk_score : Int) : RiskLevel :=
  if risk_score < 25 then RiskLevel.low
  else if risk_score < 50 then RiskLevel.moderate
  else if risk_score < 75 then RiskLevel.high
  else RiskLevel.critical

set_option linter.unusedVariables false in
/-- Function `extract_recommendations` from `app.py`.  The model text argument is
accepted (the source passes `output_lower`) but never consulted. -/
def extract_recommendations (output : List Char) (change : ChangeRequest) :
    List String :=
  let recommendations : List String := []
  let recommendations :=
    if !change.testing_completed then
      recommendations ++ ["Complete comprehensive testing before implementation"]
    else recommendations
  let recommendations :=
    if !change.has_rollback_plan then
      recommendations ++ ["Develop and validate rollback procedure"]
    else recommendations
  let recommendations :=
    if change.service_outage_required then
      recommendations ++ ["Schedule during off-peak hours (2-6 AM IST)"]
    else recommendations
  let recommendations :=
    if change.teams_involved > 3 then
      recommendations ++ ["Conduct pre-implementation coordination meeting"]
    else recommendations
  recommendations ++ ["Monitor key metrics for 24 hours post-deployment"]

/-- Function `parse_gemini_output` from `app.py`: lowercase the model text,
extract the score, band it, compute the fixed risk factors and the
recommendations, and construct the (validated) `RiskAssessment`. -/
def parse_gemini_output (output : List Char) (change : ChangeRequest) :
    Except String RiskAssessment :=
  let output_lower := lowerText output
  let risk_score := extract_risk_score output_lower
  let risk_level := riskLevelOf risk_score
  let risk_factors : List (String × String) :=
    [("complexity", if change.teams_involved > 2 then "moderate" else "low"),
     ("testing_coverage", if change.testing_completed then "adequate" else "insufficient"),
     ("historical_pattern", "favorable"),
     ("service_impact", if change.service_outage_required then "high" else "low")]
  let recommendations := extract_recommendations output_lower change
  mkRiskAssessment change.change_id risk_level risk_score risk_factors
    recommendations (risk_score > 50)

/-- Structured HTTP error, as raised by `HTTPException` in `app.py`. -/
structure HTTPError where
  status_code : Nat
  detail : String
deriving DecidableEq, Repr

/-- Handler `analyze_change_risk` from `app.py`.  The orchestrator invocation
(the LangGraph agent against the external Gemini backend) is an external
collaborator, modelled by its outcome: either an exception message or
the final answer text taken from the last message of the result.  Any
exception from the invocation or from `parse_gemini_output` is caught
and re-raised as an HTTP 500 error whose detail prepends the text
`Error: ` to the exception message. -/
def analyze_change_risk (invokeResult : Except String (List Char))
    (change : ChangeRequest) : Except HTTPError RiskAssessment :=
  match invokeResult with
  | .error e => .error ⟨500, "Error: " ++ e⟩
  | .ok output =>
    match parse_gemini_output output change with
    | .ok assessment => .ok assessment
    | .error e => .error ⟨500, "Error: " ++ e⟩

/-- The model name the shared LLM client is configured with
(`ChatGoogleGenerativeAI(model="gemini-2.5-flash", ...)` in
`agent.py`). -/
def llm_model : String := "gemini-2.5-flash"

/-- The fixed JSON object returned by `GET /health` (`health_check` in
`app.py`), as an association list. -/
def health_check : List (String × String) :=
  [("status", "healthy"),
   ("model", "gemini-2.0-flash-exp"),
   ("framework", "LangGraph + FastAPI")]

/-- A concrete high-risk change request (incomplete testing, no rollback
plan, outage required, five teams), used to instantiate theorems. -/
def allRiskChange : ChangeRequest :=
  { change_id := "CHG-001",
    description := "major database migration",
    affected_systems := ["db", "api"],
    implementation_date := "2026-02-01",
    teams_involved := 5,
    has_rollback_plan := false,
    testing_completed := false,
    service_outage_required := true,
    outage_duration_minutes := 30 }

/-- A concrete low-risk change request (testing done, rollback plan in
place, no outage, one team), used to instantiate theorems. -/
def lowRiskChange : ChangeRequest :=
  { change_id := "CHG-002",
    description := "minor config update",
    affected_systems := [],
    implementation_date := "2026-02-02",
    teams_involved := 1,
    has_rollback_plan := true,
    testing_completed := true,
    service_outage_required := false,
    outage_duration_minutes := 0 }

/-! Helper lemmas. -/

/-- The pattern needs at least one character, so it cannot match the
empty suffix. -/
theorem matchAt_nil : matchAt [] = none := by rfl

/-- The first regex alternative only ever captures an unsigned digit
run, hence a non-negative value. -/
theorem alt1_nonneg {s : List Char} {v : Int} (h : alt1 s = some v) :
    0 ≤ v := by
  simp only [alt1] at h
  split_ifs at h
  rw [Option.some_inj] at h
  omega

/-- The second regex alternative only ever captures an unsigned digit
run, hence a non-negative value. -/
theorem alt2_nonneg {s : List Char} {v : Int} (h : alt2 s = some v) :
    0 ≤ v := by
  simp only [alt2] at h
  split_ifs at h
  rw [Option.some_inj] at h
  omega

/-- Any anchored match of the full pattern yields a non-negative
value. -/
theorem matchAt_nonneg {s : List Char} {v : Int} (h : matchAt s = some v) :
    0 ≤ v := by
  unfold matchAt at h
  split at h
  · next w hw =>
      rw [Option.some_inj] at h
      exact h ▸ alt1_nonneg hw
  · exact alt2_nonneg h

/-- Any value found by the left-to-right search is non-negative. -/
theorem reSearch_nonneg {s : List Char} {v : Int} (h : reSearch s = some v) :
    0 ≤ v := by
  induction s with
  | nil => simp [reSearch] at h
  | cons c cs ih =>
    unfold reSearch at h
    split at h
    · next w hw =>
        rw [Option.some_inj] at h
        exact h ▸ matchAt_nonneg hw
    · exact ih h

/-- The extracted score is always non-negative (a matched digit run, or
the default 50). -/
theorem extract_nonneg (output : List Char) : 0 ≤ extract_risk_score output := by
  unfold extract_risk_score
  split
  · next v hv => exact reSearch_nonneg hv
  · omega

/-- If no suffix of `s` carries an anchored match, the search fails. -/
theorem reSearch_eq_none (s : List Char)
    (h : ∀ i, matchAt (s.drop i) = none) : reSearch s = none := by
  induction s with
  | nil => rfl
  | cons c cs ih =>
    have h0 := h 0
    simp only [List.drop_zero] at h0
    unfold reSearch
    rw [h0]
    exact ih (fun i => by have hi := h (i + 1); simpa using hi)

/-- If position `i` carries an anchored match and no earlier position
does, the search returns the value matched at `i` (leftmost-match
semantics). -/
theorem reSearch_eq_some (s : List Char) (i : Nat) (v : Int)
    (hm : matchAt (s.drop i) = some v)
    (hmin : ∀ j, j < i → matchAt (s.drop j) = none) :
    reSearch s = some v := by
  induction s generalizing i with
  | nil =>
    rw [List.drop_nil, matchAt_nil] at hm
    cases hm
  | cons c cs ih =>
    cases i with
    | zero =>
      simp only [List.drop_zero] at hm
      unfold reSearch
      rw [hm]
    | succ k =>
      have h0 := hmin 0 (Nat.succ_pos k)
      simp only [List.drop_zero] at h0
      unfold reSearch
      rw [h0]
      refine ih k (by simpa using hm) (fun j hj => ?_)
      have hj1 := hmin (j + 1) (Nat.succ_lt_succ hj)
      simpa using hj1

/-- Characterization of a successful assembly: `parse_gemini_output`
returns `ok` exactly when the extracted score is at most 100 (it is
never negative), and the returned assessment is the record built from
the score and the request fields. -/
theorem parse_ok_iff (output : List Char) (change : ChangeRequest)
    (a : RiskAssessment) :
    parse_gemini_output output change = Except.ok a ↔
      (extractFromOutput output ≤ 100 ∧
        a = { change_id := change.change_id,
              risk_level := riskLevelOf (extractFromOutput output),
              risk_score := extractFromOutput output,
              risk_factors :=
                [("complexity", if change.teams_involved > 2 then "moderate" else "low"),
                 ("testing_coverage", if change.testing_completed then "adequate" else "insufficient"),
                 ("historical_pattern", "favorable"),
                 ("service_impact", if change.service_outage_required then "high" else "low")],
              recommendations := extract_recommendations (lowerText output) change,
              approval_required := extractFromOutput output > 50 }) := by
  have h0 : 0 ≤ extractFromOutput output := extract_nonneg (lowerText output)
  simp only [parse_gemini_output, mkRiskAssessment]
  by_cases hle : extract_risk_score (lowerText output) ≤ 100
  · rw [if_pos ⟨h0, hle⟩]
    simp only [Except.ok.injEq]
    constructor
    · intro h
      exact ⟨hle, h.symm⟩
    · intro h
      exact h.2.symm
  · rw [if_neg (fun hc => hle hc.2)]
    constructor
    · intro h
      exact absurd h (by simp)
    · intro h
      exact absurd h.1 hle

/-- When the extracted score exceeds 100, the pydantic validation on
`risk_score` fails and assembly raises. -/
theorem parse_error_of_gt (output : List Char) (change : ChangeRequest)
    (h : 100 < extractFromOutput output) :
    parse_gemini_output output change =
      Except.error ("1 validation error for RiskAssessment risk_score") := by
  have h' : 100 < extract_risk_score (lowerText output) := h
  have hnc : ¬(0 ≤ extract_risk_score (lowerText output) ∧
      extract_risk_score (lowerText output) ≤ 100) := by
    intro hc
    omega
  simp only [parse_gemini_output, mkRiskAssessment]
  rw [if_neg hnc]

/-! Claim theorems. -/

/-- C3: applied to the lowercased model text as the pipeline does, the
extractor returns the captured value of the first (leftmost) occurrence
of either pattern `(\d+)/100` or `score:\s*(\d+)` and returns 50 when no
position of the text carries a match; concretely, a text containing
"87/100" yields 87, a text containing "Score: 42" yields 42, a text with
neither pattern yields 50, and when both patterns appear the earlier
occurrence wins. -/
theorem extract_risk_score_leftmost (output : List Char) :
    ((∀ i, matchAt ((lowerText output).drop i) = none) →
      extractFromOutput output = 50) ∧
    (∀ i v, matchAt ((lowerText output).drop i) = some v →
      (∀ j, j < i → matchAt ((lowerText output).drop j) = none) →
      extractFromOutput output = v) ∧
    extractFromOutput (("The risk is 87/100 overall.").toList) = 87 ∧
    extractFromOutput (("Score: 42").toList) = 42 ∧
    extractFromOutput (("no numbers here").toList) = 50 ∧
    extractFromOutput (("score: 10 and then 90/100").toList) = 10 := by
  refine ⟨fun h => ?_, fun i v hm hmin => ?_, by decide, by decide, by decide,
    by decide⟩
  · unfold extractFromOutput extract_risk_score
    rw [reSearch_eq_none _ h]
  · unfold extractFromOutput extract_risk_score
    rw [reSearch_eq_some _ i v hm hmin]

/-- Witness for C3: in the text "a Score: 9" the pattern matches at
position 2 and at no earlier position, and the extractor returns 9. -/
theorem extract_risk_score_leftmost_witness :
    extractFromOutput (("a Score: 9").toList) = 9 :=
  (extract_risk_score_leftmost (("a Score: 9").toList)).2.1 2 9
    (by decide) (by decide)

/-- C10: for every input text the extracted score is non-negative (the
patterns capture unsigned digit runs only), so the extracted score can
violate the `[0,100]` constraint of `RiskAssessment` only by exceeding
100, never by being negative. -/
theorem extract_risk_score_nonneg (output : List Char) :
    0 ≤ extractFromOutput output ∧
    (¬(0 ≤ extractFromOutput output ∧ extractFromOutput output ≤ 100) →
      100 < extractFromOutput output) := by
  have h : 0 ≤ extractFromOutput output := extract_nonneg (lowerText output)
  exact ⟨h, fun hn => by omega⟩

/-- Witness for C10: the text "score: 150" violates the range constraint
by exceeding 100. -/
theorem extract_risk_score_nonneg_witness :
    100 < extractFromOutput (("score: 150").toList) :=
  (extract_risk_score_nonneg (("score: 150").toList)).2 (by decide)

/-- C1 counterexample: the validation-error branch of `RiskAssessment`
construction is reachable: on the final-answer text "score: 150" the
assembly step fails with a validation error instead of returning an
assessment. -/
theorem assembly_validation_error_reachable :
    parse_gemini_output (("score: 150").toList) allRiskChange =
      Except.error ("1 validation error for RiskAssessment risk_score") :=
  parse_error_of_gt (("score: 150").toList) allRiskChange (by decide)

/-- C1 (amended): for every ChangeRequest and every final-answer text
whose extracted score is at most 100 (in particular every text the
extractor defaults on), assembly succeeds and returns a `RiskAssessment`
whose `risk_score` lies in `[0,100]`. -/
theorem assembly_ok_of_score_le_100 (output : List Char)
    (change : ChangeRequest) (h : extractFromOutput output ≤ 100) :
    ∃ a, parse_gemini_output output change = Except.ok a ∧
      0 ≤ a.risk_score ∧ a.risk_score ≤ 100 := by
  refine ⟨_, (parse_ok_iff output change _).mpr ⟨h, rfl⟩, ?_, ?_⟩
  · exact extract_nonneg (lowerText output)
  · exact h

/-- Witness for the amended C1: on the text "score: 42" assembly
succeeds with a score inside the range. -/
theorem assembly_ok_of_score_le_100_witness :
    ∃ a, parse_gemini_output (("score: 42").toList) allRiskChange =
        Except.ok a ∧ 0 ≤ a.risk_score ∧ a.risk_score ≤ 100 :=
  assembly_ok_of_score_le_100 (("score: 42").toList) allRiskChange (by decide)

/-- C2: for every score in `[0,100]` the assembled risk level is LOW iff
the score is in `[0,25)`, MODERATE iff in `[25,50)`, HIGH iff in
`[50,75)` and CRITICAL iff in `[75,100]`; in particular 25 gives
MODERATE, 50 gives HIGH and 75 gives CRITICAL, and every successfully
assembled assessment carries the level of its own score. -/
theorem riskLevelOf_thresholds (s : Int) (h0 : 0 ≤ s) (h1 : s ≤ 100) :
    (riskLevelOf s = RiskLevel.low ↔ 0 ≤ s ∧ s < 25) ∧
    (riskLevelOf s = RiskLevel.moderate ↔ 25 ≤ s ∧ s < 50) ∧
    (riskLevelOf s = RiskLevel.high ↔ 50 ≤ s ∧ s < 75) ∧
    (riskLevelOf s = RiskLevel.critical ↔ 75 ≤ s ∧ s ≤ 100) ∧
    riskLevelOf 25 = RiskLevel.moderate ∧
    riskLevelOf 50 = RiskLevel.high ∧
    riskLevelOf 75 = RiskLevel.critical ∧
    (∀ output change a, parse_gemini_output output change = Except.ok a →
      a.risk_level = riskLevelOf a.risk_score) := by
  refine ⟨?_, ?_, ?_, ?_, by decide, by decide, by decide, ?_⟩
  · unfold riskLevelOf
    split_ifs <;> simp_all
  · unfold riskLevelOf
    split_ifs <;> simp_all
  · unfold riskLevelOf
    split_ifs <;> simp_all
    all_goals omega
  · unfold riskLevelOf
    split_ifs <;> simp_all
    all_goals omega
  · intro output change a hp
    rw [parse_ok_iff] at hp
    obtain ⟨-, rfl⟩ := hp
    rfl

/-- Witness for C2: the score 30 is banded MODERATE. -/
theorem riskLevelOf_thresholds_witness :
    riskLevelOf 30 = RiskLevel.moderate :=
  (riskLevelOf_thresholds 30 (by decide) (by decide)).2.1.mpr (by decide)

/-- C4: every successfully assembled assessment requires approval
exactly when its risk score exceeds 50. -/
theorem approval_required_iff_score_gt_50 (output : List Char)
    (change : ChangeRequest) (a : RiskAssessment)
    (h : parse_gemini_output output change = Except.ok a) :
    (a.approval_required = true ↔ a.risk_score > 50) := by
  rw [parse_ok_iff] at h
  obtain ⟨-, rfl⟩ := h
  simp

/-- Witness for C4: on the text "score: 82" the assembled assessment
satisfies the approval biconditional. -/
theorem approval_required_iff_score_gt_50_witness :
    ∃ a, parse_gemini_output (("score: 82").toList) allRiskChange =
        Except.ok a ∧ (a.approval_required = true ↔ a.risk_score > 50) := by
  have hpf := (parse_ok_iff (("score: 82").toList) allRiskChange _).mpr
    ⟨by decide, rfl⟩
  exact ⟨_, hpf, approval_required_iff_score_gt_50 _ _ _ hpf⟩

/-- C6: every successfully assembled assessment carries exactly the four
risk-factor keys, in order, with complexity depending on the team count,
testing coverage on the testing flag, a constant favorable historical
pattern, and service impact on the outage flag. -/
theorem risk_factors_fixed_rules (output : List Char)
    (change : ChangeRequest) (a : RiskAssessment)
    (h : parse_gemini_output output change = Except.ok a) :
    a.risk_factors =
      [("complexity", if change.teams_involved > 2 then "moderate" else "low"),
       ("testing_coverage", if change.testing_completed then "adequate" else "insufficient"),
       ("historical_pattern", "favorable"),
       ("service_impact", if change.service_outage_required then "high" else "low")] ∧
    a.risk_factors.map Prod.fst =
      ["complexity", "testing_coverage", "historical_pattern", "service_impact"] := by
  rw [parse_ok_iff] at h
  obtain ⟨-, rfl⟩ := h
  exact ⟨rfl, rfl⟩

/-- Witness for C6: the low-risk request yields the four factors with
the low-side labels. -/
theorem risk_factors_fixed_rules_witness :
    ∃ a, parse_gemini_output (("score: 10").toList) lowRiskChange =
        Except.ok a ∧
      a.risk_factors =
        [("complexity", "low"), ("testing_coverage", "adequate"),
         ("historical_pattern", "favorable"), ("service_impact", "low")] := by
  have hpf := (parse_ok_iff (("score: 10").toList) lowRiskChange _).mpr
    ⟨by decide, rfl⟩
  refine ⟨_, hpf, ?_⟩
  exact ((risk_factors_fixed_rules _ _ _ hpf).1).trans (by decide)

/-- C5: the recommendation list is built by the five fixed rules in
order (testing, rollback plan, outage scheduling, coordination meeting
when more than three teams, and an unconditional monitoring item last);
the all-risk request yields exactly the five items in that order and the
low-risk request yields exactly the monitoring item. -/
theorem extract_recommendations_rules (output : List Char)
    (change : ChangeRequest) :
    extract_recommendations output change =
      (if !change.testing_completed then
        ["Complete comprehensive testing before implementation"] else []) ++
      (if !change.has_rollback_plan then
        ["Develop and validate rollback procedure"] else []) ++
      (if change.service_outage_required then
        ["Schedule during off-peak hours (2-6 AM IST)"] else []) ++
      (if change.teams_involved > 3 then
        ["Conduct pre-implementation coordination meeting"] else []) ++
      ["Monitor key metrics for 24 hours post-deployment"] ∧
    extract_recommendations output allRiskChange =
      ["Complete comprehensive testing before implementation",
       "Develop and validate rollback procedure",
       "Schedule during off-peak hours (2-6 AM IST)",
       "Conduct pre-implementation coordination meeting",
       "Monitor key metrics for 24 hours post-deployment"] ∧
    extract_recommendations output lowRiskChange =
      ["Monitor key metrics for 24 hours post-deployment"] := by
  refine ⟨?_, rfl, rfl⟩
  obtain ⟨id, d, sys, date, ti, rb, tc, so, od⟩ := change
  simp only [extract_recommendations]
  cases tc <;> cases rb <;> cases so <;> by_cases h : ti > 3 <;> simp [h]

/-- C7: the assembler is a pure function of the extracted score and the
request: assembling twice from the same text gives the same value, and
any two texts with the same extracted score assemble to identical
results for the same request. -/
theorem assembler_score_function (o1 o2 : List Char)
    (change : ChangeRequest) :
    parse_gemini_output o1 change = parse_gemini_output o1 change ∧
    (extractFromOutput o1 = extractFromOutput o2 →
      parse_gemini_output o1 change = parse_gemini_output o2 change) := by
  refine ⟨rfl, fun h => ?_⟩
  have hrec : extract_recommendations (lowerText o1) change =
      extract_recommendations (lowerText o2) change := rfl
  have hs : extract_risk_score (lowerText o1) =
      extract_risk_score (lowerText o2) := h
  simp only [parse_gemini_output]
  rw [hs, hrec]

/-- Witness for C7: two differently phrased texts with extracted score
42 assemble to the same assessment. -/
theorem assembler_score_function_witness :
    parse_gemini_output (("Score: 42").toList) allRiskChange =
      parse_gemini_output (("we rate it 42/100 overall").toList)
        allRiskChange :=
  (assembler_score_function (("Score: 42").toList)
    (("we rate it 42/100 overall").toList) allRiskChange).2 (by decide)

/-- C8: on any exception from the orchestrator invocation or from
extraction/assembly, the request handler returns exactly one structured
HTTP 500 error carrying the message; on success it returns the
assembled assessment and nothing else. -/
theorem analyze_change_risk_error_contract
    (inv : Except String (List Char)) (change : ChangeRequest) :
    (∀ e, inv = Except.error e →
      analyze_change_risk inv change = Except.error ⟨500, "Error: " ++ e⟩) ∧
    (∀ output e, inv = Except.ok output →
      parse_gemini_output output change = Except.error e →
      analyze_change_risk inv change = Except.error ⟨500, "Error: " ++ e⟩) ∧
    (∀ output a, inv = Except.ok output →
      parse_gemini_output output change = Except.ok a →
      analyze_change_risk inv change = Except.ok a) := by
  refine ⟨fun e he => ?_, fun output e ho hp => ?_, fun output a ho hp => ?_⟩
  · subst he
    rfl
  · subst ho
    dsimp only [analyze_change_risk]
    rw [hp]
  · subst ho
    dsimp only [analyze_change_risk]
    rw [hp]

/-- Witness for C8: a failing orchestrator invocation surfaces as a
single 500 error carrying the message. -/
theorem analyze_change_risk_error_contract_witness :
    analyze_change_risk (Except.error ("backend down")) allRiskChange =
      Except.error ⟨500, "Error: backend down"⟩ :=
  (analyze_change_risk_error_contract (Except.error ("backend down"))
    allRiskChange).1 ("backend down") rfl

/-- C9: the health endpoint reports the fixed model name
"gemini-2.0-flash-exp", which is NOT the model name the backing LLM
client is configured with ("gemini-2.5-flash"): the two strings
disagree, refuting the claimed equality (stale literal in the health
response). -/
theorem health_model_name_mismatch :
    health_check.lookup ("model") = some "gemini-2.0-flash-exp" ∧
    llm_model = "gemini-2.5-flash" ∧
    ¬ health_check.lookup ("model") = some llm_model := by
  refine ⟨rfl, rfl, ?_⟩
  decide
